import Mathlib

/-!
Shallow embedding of the gpu-monitor repository: the `gpu_metrics` SQLite
store and the SQL statements the harness scripts run against it
(`tests/db_load_test.py`, `tests/db_load_3d_test.py`, `tests/test_trimming.py`),
the per-sample value processing of the load generators, the static file
handler of `server.py`, and the attribute-lookup behaviour of the installer
class in `no_docker.py`.

SQLite `REAL` columns are modelled by rationals (all the operations involved
are order- and equality-based, never rounding), `INTEGER` columns by `Int`,
`TEXT` by `String`.  A table is a list of rows in rowid (insertion) order.
-/

namespace GpuMonitor

/-- One row of the `gpu_metrics` table, with the data columns of the schema
created by `create_db_schema` (the `id` column is the implicit list
position / rowid). -/
structure Row where
  timestamp : String
  timestamp_epoch : Int
  temperature : ℚ
  utilization : ℚ
  memory : ℚ
  power : ℚ
  deriving DecidableEq, Repr

/-- The live rows of the `gpu_metrics` table, in rowid order. -/
abbrev Db := List Row

/-- `SELECT COUNT(*) FROM gpu_metrics` (`count_records` in
`test_trimming.py`). -/
def count_records (db : Db) : Nat := db.length

/-- `DELETE FROM gpu_metrics WHERE timestamp_epoch < cutoff`
(`perform_trim_operation`, `test_trimming.py` line 107): the rows kept are
exactly those not matching the WHERE clause, in unchanged order. -/
def deleteWhereEpochLt (db : Db) (cutoff : Int) : Db :=
  db.filter fun r => !decide (r.timestamp_epoch < cutoff)

/-- The trim operation of `perform_trim_operation`: delete the old rows and
report `before_count - after_count` as the number of deleted records
(the VACUUM that follows does not change the logical table contents). -/
def perform_trim_operation (db : Db) (cutoff : Int) : Db × Nat :=
  let after := deleteWhereEpochLt db cutoff
  (after, count_records db - count_records after)

/-! ### Transactions (`populate_database` batch inserts) -/

/-- An open SQLite write transaction: the committed table contents plus the
inserts buffered since `BEGIN TRANSACTION`. -/
structure TxState where
  committed : Db
  pending : Db
  deriving DecidableEq, Repr

/-- `BEGIN TRANSACTION`. -/
def beginTransaction (db : Db) : TxState := ⟨db, []⟩

/-- One `INSERT INTO gpu_metrics ... VALUES (?, ?, ?, ?, ?, ?)` inside an
open transaction. -/
def execInsert (s : TxState) (r : Row) : TxState := ⟨s.committed, s.pending ++ [r]⟩

/-- `conn.executemany(INSERT ..., batch)`: the inserts of the batch, in
order, inside the open transaction. -/
def executemanyInsert (s : TxState) (batch : List Row) : TxState :=
  batch.foldl execInsert s

/-- `conn.commit()`: the buffered inserts become durable. -/
def commitTx (s : TxState) : Db := s.committed ++ s.pending

/-- A transaction that is interrupted or fails before `commit` is rolled
back: the table reverts to its committed contents. -/
def rollbackTx (s : TxState) : Db := s.committed

/-- One batch iteration of `populate_database`
(`BEGIN TRANSACTION; executemany(INSERT ...); commit`). -/
def append_batch (db : Db) (batch : List Row) : Db :=
  commitTx (executemanyInsert (beginTransaction db) batch)

/-- The same batch interrupted after `k` of its inserts, before the commit:
the transaction rolls back. -/
def append_batch_interrupted (db : Db) (batch : List Row) (k : Nat) : Db :=
  rollbackTx (executemanyInsert (beginTransaction db) (batch.take k))

/-! ### The export query (`create_history_json`) -/

/-- The ORDER BY relation of the export query: comparison of the
`timestamp_epoch` column. -/
def epochLe (a b : Row) : Prop := a.timestamp_epoch ≤ b.timestamp_epoch

instance : DecidableRel epochLe := fun a b =>
  inferInstanceAs (Decidable (a.timestamp_epoch ≤ b.timestamp_epoch))

instance : IsTotal Row epochLe :=
  ⟨fun a b => Int.le_total a.timestamp_epoch b.timestamp_epoch⟩

instance : IsTrans Row epochLe :=
  ⟨fun _ _ _ hab hbc => le_trans hab hbc⟩

/-- `SELECT ... FROM gpu_metrics WHERE timestamp_epoch > cutoff ORDER BY
timestamp_epoch ASC` (`create_history_json`): the rows with epoch strictly
above the cutoff, sorted ascending by epoch. -/
def selectWindow (db : Db) (cutoff : Int) : List Row :=
  List.insertionSort epochLe (db.filter fun r => decide (cutoff < r.timestamp_epoch))

/-- The JSON object written by `create_history_json`: five parallel arrays. -/
structure HistoryDoc where
  timestamps : List String
  temperatures : List ℚ
  utilizations : List ℚ
  memory : List ℚ
  power : List ℚ
  deriving DecidableEq, Repr

/-- `create_history_json`: run the export query and push each selected row's
columns onto the five arrays, one row at a time. -/
def create_history_json (db : Db) (cutoff : Int) : HistoryDoc :=
  let sel := selectWindow db cutoff
  { timestamps := sel.map Row.timestamp
    temperatures := sel.map Row.temperature
    utilizations := sel.map Row.utilization
    memory := sel.map Row.memory
    power := sel.map Row.power }

/-! ### Value sanitization (the per-sample processing of `generate_metrics`) -/

/-- Clamp a value into `[lo, hi]`, exactly as the generators write it:
`max(lo, min(hi, x))`. -/
def clampQ (lo hi x : ℚ) : ℚ := max lo (min hi x)

/-- A raw power reading: either a numeric wattage or the non-numeric
sensor output (the string `N/A` in `generate_metrics`). -/
inductive RawPower where
  | num (p : ℚ)
  | na
  deriving DecidableEq, Repr

/-- A raw reading before sanitization: the four fields parsed from the
GPU query tool, the power field possibly non-numeric. -/
structure RawReading where
  temperature : ℚ
  utilization : ℚ
  memory : ℚ
  power : RawPower
  deriving DecidableEq, Repr

/-- The value stored in the `power` column (`db_load_3d_test.py` lines
156-173): a numeric reading is clamped into `[10, 350]`; a non-numeric
`N/A` reading is stored as `0`. -/
def powerColumnValue : RawPower → ℚ
  | .num p => clampQ 10 350 p
  | .na => 0

/-- The sanitized values of one sample, as they are placed into the metrics
tuple. -/
structure SanitizedReading where
  temperature : ℚ
  utilization : ℚ
  memory : ℚ
  power : ℚ
  deriving DecidableEq, Repr

/-- The value sanitization of `generate_metrics` (lines 156-173 of
`db_load_3d_test.py`): clamp temperature into `[20, 95]`, utilization into
`[0, 100]`, memory into `[500, 12000]`, numeric power into `[10, 350]`,
and turn a non-numeric power reading into the sentinel `0`. -/
def sanitize (r : RawReading) : SanitizedReading :=
  { temperature := clampQ 20 95 r.temperature
    utilization := clampQ 0 100 r.utilization
    memory := clampQ 500 12000 r.memory
    power := powerColumnValue r.power }

/-- The metrics tuple appended by `generate_metrics` (lines 166-174): the
formatted timestamp, the integer epoch, and the sanitized values. -/
def generated_metric (ts : String) (ep : Int) (t u m : ℚ) (pw : RawPower) : Row :=
  { timestamp := ts
    timestamp_epoch := ep
    temperature := (sanitize ⟨t, u, m, pw⟩).temperature
    utilization := (sanitize ⟨t, u, m, pw⟩).utilization
    memory := (sanitize ⟨t, u, m, pw⟩).memory
    power := (sanitize ⟨t, u, m, pw⟩).power }

/-! ### Schema (`create_db_schema`) and the persisted store file -/

/-- The columns of the `gpu_metrics` table, in the order of the CREATE
TABLE statement of `create_db_schema`. -/
def gpu_metrics_columns : List String :=
  ["id", "timestamp", "timestamp_epoch", "temperature", "utilization", "memory", "power"]

/-- The secondary index created by `create_db_schema`: its name and the
column it indexes. -/
def epoch_index : String × String :=
  ("idx_gpu_metrics_timestamp_epoch", "timestamp_epoch")

/-- The persisted store file: the `gpu_metrics` table definition (its
column list, when the table exists), the defined indexes (name, column),
and the live rows. -/
structure DbFile where
  table : Option (List String)
  indexes : List (String × String)
  rows : Db
  deriving DecidableEq, Repr

/-- `create_db_schema`: `CREATE TABLE IF NOT EXISTS gpu_metrics (...)`
followed by `CREATE INDEX IF NOT EXISTS idx_gpu_metrics_timestamp_epoch ON
gpu_metrics(timestamp_epoch)`.  `IF NOT EXISTS` leaves an existing table
(and its rows) and an existing index of the same name untouched. -/
def create_db_schema (f : DbFile) : DbFile :=
  let f1 : DbFile :=
    match f.table with
    | none => { f with table := some gpu_metrics_columns }
    | some _ => f
  if f1.indexes.any (fun i => i.1 == epoch_index.1) then f1
  else { f1 with indexes := f1.indexes ++ [epoch_index] }

/-- Whether the store file carries the secondary index on
`timestamp_epoch`. -/
def hasEpochIndex (f : DbFile) : Bool :=
  f.indexes.any (fun i => i == epoch_index)

/-- A fresh, empty store file, before any schema initialization. -/
def emptyDbFile : DbFile := ⟨none, [], []⟩

/-- The write operations the repository's scripts run against the store
file: single-row insert, one batched insert transaction, the trim DELETE,
the `DELETE FROM gpu_metrics` that clears the table in `populate_database`,
`VACUUM`, and re-running the schema script. -/
inductive StoreOp where
  | append (r : Row)
  | appendBatch (rs : List Row)
  | trim (cutoff : Int)
  | clearAll
  | vacuum
  | initSchema
  deriving DecidableEq, Repr

/-- The effect of one store operation on the persisted file.  `VACUUM`
rewrites the backing file but leaves the logical contents unchanged. -/
def applyOp (f : DbFile) : StoreOp → DbFile
  | .append r => { f with rows := f.rows ++ [r] }
  | .appendBatch rs => { f with rows := append_batch f.rows rs }
  | .trim cutoff => { f with rows := (perform_trim_operation f.rows cutoff).1 }
  | .clearAll => { f with rows := [] }
  | .vacuum => f
  | .initSchema => create_db_schema f

/-- A store state reachable by running the scripts: schema initialization
on a fresh file followed by any sequence of store operations. -/
def reachableState (ops : List StoreOp) : DbFile :=
  ops.foldl applyOp (create_db_schema emptyDbFile)

/-! ### The static file server (`server.py`) -/

/-- Python's `s.strip(c)` for a single strip character: remove every
leading and every trailing occurrence of `c`. -/
def pyStrip (s : String) (c : Char) : String :=
  String.mk (((s.toList.dropWhile (· == c)).reverse.dropWhile (· == c)).reverse)

/-- The file name `handle_static` resolves a request path to:
`request.path.strip('/')`, with `gpu-stats.html` substituted when the
stripped path is empty. -/
def resolved_path (requestPath : String) : String :=
  let file_path := pyStrip requestPath '/'
  if file_path = "" then "gpu-stats.html" else file_path

/-- An HTTP response of the server: a file response for a path, or a bare
status code. -/
inductive HttpResponse where
  | fileResponse (path : String)
  | status (code : Nat)
  deriving DecidableEq, Repr

/-- `handle_static` (`server.py` lines 9-15), with the filesystem
existence check `os.path.exists` passed in as an oracle over relative
paths: serve the resolved file if it exists, else return status 404. -/
def handle_static (fsExists : String → Bool) (requestPath : String) : HttpResponse :=
  if fsExists (resolved_path requestPath) then .fileResponse (resolved_path requestPath)
  else .status 404

/-! ### Installer attribute lookup (`no_docker.py`) -/

/-- The methods defined on the class GPUMonitorInstaller in
`no_docker.py`. -/
def installer_methods : List String :=
  ["__init__", "setup_logging", "detect_environment", "check_nvidia_paths",
   "check_prerequisites", "check_and_install_dependencies", "setup_directories",
   "setup_virtual_environment", "modify_monitor_script", "create_systemd_service",
   "copy_application_files", "check_service_status", "start_service",
   "stop_service", "cleanup"]

/-- The instance attributes assigned in GPUMonitorInstaller.__init__ and
setup_logging. -/
def installer_instance_attrs : List String :=
  ["current_dir", "user", "user_home", "app_dir", "venv_dir", "log_dir",
   "history_dir", "systemd_service_path", "nvidia_smi_path",
   "required_commands", "required_packages", "logger"]

/-- The outcome of running a piece of Python: a value, or an uncaught
AttributeError naming the missing attribute. -/
inductive PyResult (α : Type) where
  | ok (a : α)
  | attributeError (name : String)
  deriving DecidableEq, Repr

/-- Python attribute lookup on the installer instance: defined methods and
instance attributes resolve; anything else raises AttributeError. -/
def getattr_installer (name : String) : PyResult Unit :=
  if name ∈ installer_methods ∨ name ∈ installer_instance_attrs then .ok ()
  else .attributeError name

/-- Sequencing of Python execution: an uncaught exception aborts the rest
of the computation. -/
def pyBind {α β : Type} : PyResult α → (α → PyResult β) → PyResult β
  | .ok a, rest => rest a
  | .attributeError n, _ => .attributeError n

/-- `check_prerequisites` (`no_docker.py` line 190): its first statement is
`self.ensure_path()`, an attribute lookup of `ensure_path` on the instance;
everything after that first statement is the parameter `rest`. -/
def check_prerequisites_run (rest : Unit → PyResult Bool) : PyResult Bool :=
  pyBind (getattr_installer "ensure_path") rest

/-- The `--start` flow of `main` (`no_docker.py` lines 700-709): evaluate
`installer.check_prerequisites()` first; only when it returns True do the
later installation steps (`laterSteps`) run; a False short-circuits the
`and` chain, so the flow reports failure. -/
def main_start (rest : Unit → PyResult Bool) (laterSteps : Unit → PyResult Bool) :
    PyResult Bool :=
  pyBind (check_prerequisites_run rest) fun ok =>
    if ok then laterSteps () else .ok false

/-! ## Helper lemmas -/

theorem clampQ_bounds {lo hi : ℚ} (h : lo ≤ hi) (x : ℚ) :
    lo ≤ clampQ lo hi x ∧ clampQ lo hi x ≤ hi :=
  ⟨le_max_left _ _, max_le h (min_le_left _ _)⟩

theorem clampQ_eq_ite {lo hi : ℚ} (h : lo ≤ hi) (x : ℚ) :
    clampQ lo hi x = if x < lo then lo else if hi < x then hi else x := by
  unfold clampQ
  split_ifs with h1 h2
  · rw [min_eq_right (le_of_lt (lt_of_lt_of_le h1 h)), max_eq_left (le_of_lt h1)]
  · rw [min_eq_left (le_of_lt h2), max_eq_right h]
  · rw [min_eq_right (not_lt.mp h2), max_eq_right (not_lt.mp h1)]

theorem executemanyInsert_committed (batch : List Row) (s : TxState) :
    (executemanyInsert s batch).committed = s.committed := by
  induction batch generalizing s with
  | nil => rfl
  | cons r rs ih => exact ih (execInsert s r)

theorem executemanyInsert_pending (batch : List Row) (s : TxState) :
    (executemanyInsert s batch).pending = s.pending ++ batch := by
  induction batch generalizing s with
  | nil => simp [executemanyInsert]
  | cons r rs ih =>
      have := ih (execInsert s r)
      simp [executemanyInsert, execInsert] at this ⊢
      simp [this]

theorem append_batch_eq (db : Db) (batch : List Row) :
    append_batch db batch = db ++ batch := by
  unfold append_batch commitTx beginTransaction
  rw [executemanyInsert_committed, executemanyInsert_pending]
  simp

theorem append_batch_interrupted_eq (db : Db) (batch : List Row) (k : Nat) :
    append_batch_interrupted db batch k = db := by
  unfold append_batch_interrupted rollbackTx beginTransaction
  rw [executemanyInsert_committed]

theorem length_filter_add_length_filter_not {α : Type} (p : α → Bool) (l : List α) :
    (l.filter p).length + (l.filter (fun a => !p a)).length = l.length := by
  induction l with
  | nil => rfl
  | cons a l ih =>
      by_cases h : p a
      · simp [List.filter_cons, h]; omega
      · simp [List.filter_cons, h]; omega

theorem deleteWhereEpochLt_eq_filter_ge (db : Db) (cutoff : Int) :
    deleteWhereEpochLt db cutoff
      = db.filter (fun r => decide (cutoff ≤ r.timestamp_epoch)) := by
  unfold deleteWhereEpochLt
  apply List.filter_congr
  intro r _
  rw [← decide_not, decide_eq_decide]
  exact Int.not_lt

/-! ## Claims -/

/-- C3: for every store state and cutoff epoch, the trim DELETE keeps
exactly the rows with epoch at least the cutoff, unmodified and in order;
the remaining record count is the number of such rows, and the reported
deleted count is the number of rows with epoch strictly below the
cutoff. -/
theorem trim_deletes_exactly_old (db : Db) (cutoff : Int) :
    (perform_trim_operation db cutoff).1
        = db.filter (fun r => decide (cutoff ≤ r.timestamp_epoch)) ∧
    count_records (perform_trim_operation db cutoff).1
        = db.countP (fun r => decide (cutoff ≤ r.timestamp_epoch)) ∧
    (perform_trim_operation db cutoff).2
        = db.countP (fun r => decide (r.timestamp_epoch < cutoff)) := by
  refine ⟨deleteWhereEpochLt_eq_filter_ge db cutoff, ?_, ?_⟩
  · rw [List.countP_eq_length_filter]
    exact congrArg List.length (deleteWhereEpochLt_eq_filter_ge db cutoff)
  · show count_records db - count_records (deleteWhereEpochLt db cutoff) = _
    rw [List.countP_eq_length_filter]
    have h := length_filter_add_length_filter_not
      (fun r : Row => decide (r.timestamp_epoch < cutoff)) db
    show db.length - (deleteWhereEpochLt db cutoff).length = _
    unfold deleteWhereEpochLt
    omega

/-- C5: the trim operation is idempotent — running it a second time with
the same cutoff deletes zero records and leaves the table exactly as it
was after the first run. -/
theorem trim_idempotent (db : Db) (cutoff : Int) :
    perform_trim_operation (perform_trim_operation db cutoff).1 cutoff
      = ((perform_trim_operation db cutoff).1, 0) := by
  have h : deleteWhereEpochLt (deleteWhereEpochLt db cutoff) cutoff
      = deleteWhereEpochLt db cutoff := by
    unfold deleteWhereEpochLt
    rw [List.filter_filter]
    apply List.filter_congr
    intro a _
    rw [Bool.and_self]
  have h1 : (perform_trim_operation db cutoff).1 = deleteWhereEpochLt db cutoff := rfl
  show (deleteWhereEpochLt _ _, count_records _ - count_records (deleteWhereEpochLt _ _)) = _
  rw [h1, h, Nat.sub_self]

/-- C4: a committed batch insert appends exactly the batch, so the record
count grows by the batch length; a batch interrupted before its commit
rolls back, leaving the store contents and count unchanged
(all-or-nothing). -/
theorem append_batch_all_or_nothing (db : Db) (batch : List Row) (k : Nat) :
    append_batch db batch = db ++ batch ∧
    count_records (append_batch db batch) = count_records db + batch.length ∧
    append_batch_interrupted db batch k = db ∧
    count_records (append_batch_interrupted db batch k) = count_records db := by
  refine ⟨append_batch_eq db batch, ?_, append_batch_interrupted_eq db batch k, ?_⟩
  · rw [append_batch_eq]
    exact List.length_append db batch
  · rw [append_batch_interrupted_eq]

theorem selectWindow_perm (db : Db) (cutoff : Int) :
    (selectWindow db cutoff).Perm
      (db.filter fun r => decide (cutoff < r.timestamp_epoch)) :=
  List.perm_insertionSort epochLe _

theorem selectWindow_sorted (db : Db) (cutoff : Int) :
    List.Sorted epochLe (selectWindow db cutoff) :=
  List.sorted_insertionSort epochLe _

/-- C1: for every store state and export cutoff, the exported document is
five parallel arrays that are the five column projections of one selected
row list: all five lengths equal the selected length, index i of every
array comes from the same selected row, the selected rows are exactly
(as a multiset) the stored rows with epoch strictly above the cutoff, and
they are in ascending epoch order. -/
theorem history_doc_parallel (db : Db) (cutoff : Int) :
    ∃ sel : List Row,
      (create_history_json db cutoff).timestamps = sel.map Row.timestamp ∧
      (create_history_json db cutoff).temperatures = sel.map Row.temperature ∧
      (create_history_json db cutoff).utilizations = sel.map Row.utilization ∧
      (create_history_json db cutoff).memory = sel.map Row.memory ∧
      (create_history_json db cutoff).power = sel.map Row.power ∧
      (create_history_json db cutoff).timestamps.length = sel.length ∧
      (create_history_json db cutoff).temperatures.length = sel.length ∧
      (create_history_json db cutoff).utilizations.length = sel.length ∧
      (create_history_json db cutoff).memory.length = sel.length ∧
      (create_history_json db cutoff).power.length = sel.length ∧
      sel.Perm (db.filter fun r => decide (cutoff < r.timestamp_epoch)) ∧
      List.Sorted epochLe sel := by
  refine ⟨selectWindow db cutoff, rfl, rfl, rfl, rfl, rfl, ?_, ?_, ?_, ?_, ?_,
    selectWindow_perm db cutoff, selectWindow_sorted db cutoff⟩
  all_goals simp [create_history_json]

/-- C7: samples batch-appended to an empty store and read back through the
window query at epoch 0 come back exactly (same rows, all fields equal),
ordered ascending by epoch; when they were appended in epoch order the
returned list is literally the appended list. -/
theorem window_roundtrip (samples : List Row)
    (hpos : ∀ r ∈ samples, 0 < r.timestamp_epoch) :
    (selectWindow (append_batch [] samples) 0).Perm samples ∧
    List.Sorted epochLe (selectWindow (append_batch [] samples) 0) ∧
    (List.Sorted epochLe samples →
      selectWindow (append_batch [] samples) 0 = samples) := by
  have hdb : append_batch [] samples = samples := by
    rw [append_batch_eq]; rfl
  have hfil : samples.filter (fun r => decide (0 < r.timestamp_epoch)) = samples :=
    List.filter_eq_self.mpr fun r hr => decide_eq_true (hpos r hr)
  have hsel : selectWindow (append_batch [] samples) 0
      = List.insertionSort epochLe samples := by
    unfold selectWindow
    rw [hdb, hfil]
  refine ⟨?_, ?_, ?_⟩
  · rw [hsel]; exact List.perm_insertionSort epochLe samples
  · rw [hsel]; exact List.sorted_insertionSort epochLe samples
  · intro hsorted
    rw [hsel]
    exact hsorted.insertionSort_eq

/-- Concrete store rows used to witness the hypotheses of the window
round-trip: positive epochs, appended out of epoch order. -/
def sampleRowA : Row :=
  { timestamp := "01-01 00:00:05", timestamp_epoch := 5,
    temperature := 40, utilization := 20, memory := 2000, power := 100 }

def sampleRowB : Row :=
  { timestamp := "01-01 00:00:03", timestamp_epoch := 3,
    temperature := 41, utilization := 21, memory := 2001, power := 101 }

theorem window_roundtrip_witness :
    (∀ r ∈ [sampleRowA, sampleRowB], 0 < r.timestamp_epoch) ∧
    (selectWindow (append_batch [] [sampleRowA, sampleRowB]) 0).Perm
      [sampleRowA, sampleRowB] :=
  ⟨by decide, (window_roundtrip [sampleRowA, sampleRowB] (by decide)).1⟩

/-- C6: sanitization is total and clamping: the sanitized temperature lies
in [20, 95], utilization in [0, 100], memory in [500, 12000]; each of the
three is the input when the input is in range and the violated bound
otherwise; a numeric power is clamped the same way into [10, 350]. -/
theorem sanitize_clamps (r : RawReading) (p : ℚ) :
    (20 ≤ (sanitize r).temperature ∧ (sanitize r).temperature ≤ 95) ∧
    (0 ≤ (sanitize r).utilization ∧ (sanitize r).utilization ≤ 100) ∧
    (500 ≤ (sanitize r).memory ∧ (sanitize r).memory ≤ 12000) ∧
    ((sanitize r).temperature
        = if r.temperature < 20 then 20
          else if 95 < r.temperature then 95 else r.temperature) ∧
    ((sanitize r).utilization
        = if r.utilization < 0 then 0
          else if 100 < r.utilization then 100 else r.utilization) ∧
    ((sanitize r).memory
        = if r.memory < 500 then 500
          else if 12000 < r.memory then 12000 else r.memory) ∧
    (10 ≤ (sanitize { r with power := .num p }).power ∧
      (sanitize { r with power := .num p }).power ≤ 350) ∧
    ((sanitize { r with power := .num p }).power
        = if p < 10 then 10 else if 350 < p then 350 else p) :=
  ⟨clampQ_bounds (by norm_num) _, clampQ_bounds (by norm_num) _,
    clampQ_bounds (by norm_num) _, clampQ_eq_ite (by norm_num) _,
    clampQ_eq_ite (by norm_num) _, clampQ_eq_ite (by norm_num) _,
    clampQ_bounds (by norm_num) _, clampQ_eq_ite (by norm_num) _⟩

/-- C2 counterexample: the stored sample for a reading whose power field is
the non-numeric N/A carries no flag — it is literally the row whose power
column holds the plain number 0, in a schema whose columns are exactly the
seven data columns (no availability column), and the exported document
reports that reading as the number 0 in its power array.  So the stored
sample does not carry a flag distinguishing it from a row recording zero
measured watts. -/
theorem power_na_stored_without_flag :
    generated_metric "01-01 00:00:00" 1000 40 20 2000 RawPower.na
      = { timestamp := "01-01 00:00:00", timestamp_epoch := 1000,
          temperature := 40, utilization := 20, memory := 2000, power := 0 } ∧
    gpu_metrics_columns
      = ["id", "timestamp", "timestamp_epoch", "temperature", "utilization",
         "memory", "power"] ∧
    (create_history_json
        [{ timestamp := "01-01 00:00:00", timestamp_epoch := 1000,
           temperature := 40, utilization := 20, memory := 2000, power := 0 }]
        0).power = [0] := by
  refine ⟨?_, rfl, ?_⟩ <;> decide

/-- C2 amended: a non-numeric power reading is stored as the sentinel value
0 in the plain power column, with no separate flag; the sentinel is
nevertheless unambiguous, because a numeric reading is clamped into
[10, 350] and therefore never stored as 0, and the export copies the power
column verbatim — so a stored or exported power of 0 occurs exactly for
unavailable readings and is never a valid wattage. -/
theorem power_na_sentinel_unambiguous (ts : String) (ep : Int) (t u m : ℚ)
    (pw : RawPower) :
    ((generated_metric ts ep t u m pw).power = 0 ↔ pw = RawPower.na) ∧
    (∀ p : ℚ, pw = RawPower.num p →
      10 ≤ (generated_metric ts ep t u m pw).power ∧
        (generated_metric ts ep t u m pw).power ≤ 350) ∧
    (∀ (db : Db) (cutoff : Int),
      (create_history_json db cutoff).power
        = (selectWindow db cutoff).map Row.power) := by
  cases pw with
  | na =>
      refine ⟨⟨fun _ => rfl, fun _ => rfl⟩, fun p hp => ?_, fun db c => rfl⟩
      exact nomatch hp
  | num q =>
      have hq : (generated_metric ts ep t u m (RawPower.num q)).power
          = clampQ 10 350 q := rfl
      have hb := clampQ_bounds (show (10:ℚ) ≤ 350 by norm_num) q
      refine ⟨⟨fun h0 => absurd h0 ?_, fun h => nomatch h⟩, fun p hp => ?_, fun db c => rfl⟩
      · rw [hq]
        intro hzero
        rw [hzero] at hb
        exact absurd hb.1 (by norm_num)
      · rw [hq]
        exact hb

theorem power_na_sentinel_witness :
    (generated_metric "01-01 00:00:00" 1000 40 20 2000 RawPower.na).power = 0 ∧
    10 ≤ (generated_metric "01-01 00:00:00" 1000 40 20 2000 (RawPower.num 5)).power :=
  ⟨(power_na_sentinel_unambiguous "01-01 00:00:00" 1000 40 20 2000 RawPower.na).1.mpr
      rfl,
    ((power_na_sentinel_unambiguous "01-01 00:00:00" 1000 40 20 2000
        (RawPower.num 5)).2.1 5 rfl).1⟩

theorem create_db_schema_rows (f : DbFile) : (create_db_schema f).rows = f.rows := by
  rcases f with ⟨tab, idx, rows⟩
  cases tab <;> simp only [create_db_schema] <;> split <;> rfl

theorem create_db_schema_idem (f : DbFile) :
    create_db_schema (create_db_schema f) = create_db_schema f := by
  rcases f with ⟨tab, idx, rows⟩
  cases tab <;>
    · by_cases hany : idx.any (fun i => i.1 == epoch_index.1) = true <;>
        simp [create_db_schema, hany, List.any_append]

theorem hasEpochIndex_applyOp (f : DbFile) (op : StoreOp)
    (h : hasEpochIndex f = true) : hasEpochIndex (applyOp f op) = true := by
  cases op with
  | initSchema =>
      show hasEpochIndex (create_db_schema f) = true
      rcases f with ⟨tab, idx, rows⟩
      simp only [hasEpochIndex] at h
      cases tab <;>
        · by_cases hany : idx.any (fun i => i.1 == epoch_index.1) = true <;>
            simp [create_db_schema, hany, hasEpochIndex, List.any_append, h]
  | append r => exact h
  | appendBatch rs => exact h
  | trim cutoff => exact h
  | clearAll => exact h
  | vacuum => exact h

theorem hasEpochIndex_foldl (ops : List StoreOp) (f : DbFile)
    (h : hasEpochIndex f = true) :
    hasEpochIndex (ops.foldl applyOp f) = true := by
  induction ops generalizing f with
  | nil => exact h
  | cons op ops ih => exact ih (applyOp f op) (hasEpochIndex_applyOp f op h)

/-- C8: initializing the schema creates the gpu_metrics table with exactly
the seven schema columns and the secondary index on timestamp_epoch; the
initialization never touches existing rows and is idempotent (a second run
on an already-initialized store changes nothing); the epoch index is
present in every store state reachable from an initialized file by the
scripts' operations. -/
theorem schema_init_contract :
    (∀ f : DbFile, (create_db_schema f).rows = f.rows) ∧
    (create_db_schema emptyDbFile).table = some gpu_metrics_columns ∧
    hasEpochIndex (create_db_schema emptyDbFile) = true ∧
    (∀ f : DbFile, create_db_schema (create_db_schema f) = create_db_schema f) ∧
    (∀ ops : List StoreOp, hasEpochIndex (reachableState ops) = true) :=
  ⟨create_db_schema_rows, by decide, by decide, create_db_schema_idem,
    fun ops => hasEpochIndex_foldl ops _ (by decide)⟩

/-- C9: the static handler serves exactly the file named by stripping the
slashes from the request path (defaulting to gpu-stats.html for the bare
root) whenever that relative path exists, and answers 404 otherwise; it
applies no containment check, so the request path /../../etc/passwd
resolves to the parent-escaping relative path ../../etc/passwd and is
served whenever that path exists. -/
theorem handle_static_spec (fsExists : String → Bool) (requestPath : String) :
    (fsExists (resolved_path requestPath) = true →
      handle_static fsExists requestPath
        = HttpResponse.fileResponse (resolved_path requestPath)) ∧
    (fsExists (resolved_path requestPath) = false →
      handle_static fsExists requestPath = HttpResponse.status 404) ∧
    resolved_path "/" = "gpu-stats.html" ∧
    resolved_path "/../../etc/passwd" = "../../etc/passwd" ∧
    handle_static (fun s => s == "../../etc/passwd") "/../../etc/passwd"
      = HttpResponse.fileResponse "../../etc/passwd" ∧
    "../../etc/passwd".toList.take 3 = ['.', '.', '/'] := by
  refine ⟨fun hex => ?_, fun hmiss => ?_, by decide, by decide, by decide, by decide⟩
  · unfold handle_static
    rw [hex]
    rfl
  · unfold handle_static
    rw [hmiss]
    rfl

theorem handle_static_spec_witness :
    ((fun s => s == "gpu-stats.html") (resolved_path "/") = true) ∧
    handle_static (fun s => s == "gpu-stats.html") "/"
      = HttpResponse.fileResponse (resolved_path "/") :=
  ⟨by decide, (handle_static_spec (fun s => s == "gpu-stats.html") "/").1 (by decide)⟩

/-- C10: ensure_path is neither a method of GPUMonitorInstaller nor an
instance attribute, so check_prerequisites raises AttributeError on its
very first statement no matter what the rest of its body would do, and the
start installation flow, which runs check_prerequisites first, always
aborts with that AttributeError and never completes successfully. -/
theorem check_prerequisites_attribute_error (rest laterSteps : Unit → PyResult Bool) :
    check_prerequisites_run rest = PyResult.attributeError "ensure_path" ∧
    main_start rest laterSteps = PyResult.attributeError "ensure_path" ∧
    "ensure_path" ∉ installer_methods ∧
    "ensure_path" ∉ installer_instance_attrs := by
  have hget : getattr_installer "ensure_path"
      = PyResult.attributeError "ensure_path" := by decide
  have h1 : check_prerequisites_run rest = PyResult.attributeError "ensure_path" := by
    unfold check_prerequisites_run
    rw [hget]
    rfl
  refine ⟨h1, ?_, by decide, by decide⟩
  unfold main_start
  rw [h1]
  rfl

end GpuMonitor
